import Mathlib

/-!
Shallow embedding of the frame-cadence scheduler and track manager of the
`object_detection` backend:

* `backend/app/services/tracker.py` — class `ByteTrack` (`__init__`, `update`,
  `get_active_tracks`), a simplified tracker that assigns a fresh id to every
  detection, ages all stored tracks on each `update`, and evicts tracks whose
  age (`last_seen`) exceeds `buffer_size`.
* `backend/app/routes/stream.py` — the per-connection websocket loop: decode a
  frame (skip on failure), increment the frame counter, run the detector and
  `tracker.update` when `frame_count % DETECTOR_FRAME_INTERVAL == 0`, otherwise
  `tracker.get_active_tracks()`; any exception escaping the loop body (for
  example from `detector.detect`) is caught by the session-level handler and
  ends the loop.

Python dicts preserve insertion order, so `self.tracks : Dict[int, ...]` is
modelled as a list of tracks in insertion order with unique ids.  Mutation of
the shared per-track dicts (`track["last_seen"] += 1` also affects the dicts
already appended to the `updated_tracks` return list) is modelled explicitly.
-/

/-- A detection produced by the external detector for one frame: the fields
`"box"`, `"confidence"`, `"class"` that `ByteTrack.update` copies into a track.
The tracker never computes with them, so pixel coordinates are `Int` and the
float confidence is a rational. -/
structure Detection where
  box : Int × Int × Int × Int
  confidence : Rat
  cls : String
  deriving DecidableEq, Repr

/-- A track dict as built in `ByteTrack.update`:
`{"id": ..., "box": ..., "class": ..., "confidence": ..., "last_seen": ...}`. -/
structure Track where
  id : Nat
  box : Int × Int × Int × Int
  cls : String
  confidence : Rat
  last_seen : Nat
  deriving DecidableEq, Repr

/-- The mutable fields of a `ByteTrack` instance set in `__init__`:
`self.tracks` (insertion-ordered dict, here a list with unique ids),
`self.next_id`, `self.buffer_size`.  (`self.history` is written by nobody and
read by nobody, so it is omitted.) -/
structure ByteTrackState where
  tracks : List Track
  next_id : Nat
  buffer_size : Nat
  deriving DecidableEq, Repr

/-- Embedding of `ByteTrack.__init__(buffer_size)`: empty track dict,
`next_id = 0`. -/
def initState (buffer_size : Nat) : ByteTrackState :=
  { tracks := [], next_id := 0, buffer_size := buffer_size }

/-- The first loop of `ByteTrack.update`: for each detection, build a track
dict with id `next_id`, `next_id += 1`, `last_seen = 0`, and insert it into
`self.tracks` (new keys append at the end of a Python dict). -/
def mkNewTracks (nid : Nat) : List Detection → List Track
  | [] => []
  | d :: ds =>
      { id := nid, box := d.box, cls := d.cls, confidence := d.confidence,
        last_seen := 0 } :: mkNewTracks (nid + 1) ds

/-- The statement `track["last_seen"] += 1` applied to one track dict. -/
def ageTrack (t : Track) : Track :=
  { t with last_seen := t.last_seen + 1 }

namespace ByteTrack

/-- Embedding of `ByteTrack.update(detections)`.  Creates one new track per detection
(appending each to `self.tracks` and to the local `updated_tracks` list),
then increments `last_seen` on every track in `self.tracks` — including the
ones just created, whose dicts are shared with `updated_tracks` — and deletes
from `self.tracks` every track with `last_seen > buffer_size`.  Returns the
new state together with the `updated_tracks` list (which keeps referencing
the aged dicts even when they were deleted from `self.tracks`). -/
def update (s : ByteTrackState) (detections : List Detection) :
    ByteTrackState × List Track :=
  let fresh := mkNewTracks s.next_id detections
  let aged := (s.tracks ++ fresh).map ageTrack
  let kept := aged.filter (fun t => t.last_seen ≤ s.buffer_size)
  ({ tracks := kept, next_id := s.next_id + detections.length,
     buffer_size := s.buffer_size },
   fresh.map ageTrack)

/-- Embedding of `ByteTrack.get_active_tracks()`: `return list(self.tracks.values())`.
No mutation of any kind. -/
def get_active_tracks (s : ByteTrackState) : List Track :=
  s.tracks

end ByteTrack

/-- A sequence of `update` calls starting from a given state. -/
def runUpdates (s : ByteTrackState) : List (List Detection) → ByteTrackState
  | [] => s
  | ds :: rest => runUpdates (ByteTrack.update s ds).1 rest

/-- One scheduler cycle at the tracker: `some dets` is a detector cycle
(`tracker.update(detections)`), `none` is a track-only cycle
(`tracker.get_active_tracks()`). -/
def trackerCycle (s : ByteTrackState) :
    Option (List Detection) → ByteTrackState × List Track
  | some dets => ByteTrack.update s dets
  | none => (s, ByteTrack.get_active_tracks s)

/-- Run a sequence of scheduler cycles, collecting the track list each cycle
hands to the renderer. -/
def runCycles (s : ByteTrackState) :
    List (Option (List Detection)) → ByteTrackState × List (List Track)
  | [] => (s, [])
  | c :: cs =>
      let step := trackerCycle s c
      let rest := runCycles step.1 cs
      (rest.1, step.2 :: rest.2)

/-! ## The websocket session loop (`backend/app/routes/stream.py`) -/

/-- One received websocket text message, after the decode attempt:
* `bad` — `base64.b64decode`/`cv2.imdecode` raised or `imdecode` returned
  `None`; the loop body executes `continue`.
* ok with `none` — the frame decoded, and if the detector is invoked this
  cycle, `detector.detect` raises.
* ok with `some dets` — the frame decoded, and if the detector is invoked
  this cycle it returns `dets`. -/
inductive FrameMsg where
  | bad
  | ok (detResult : Option (List Detection))
  deriving DecidableEq, Repr

/-- Per-connection state of `websocket_endpoint`: the local `frame_count`,
the tracker instance, and whether the `while True` loop is still running
(`isOpen = false` once control has left the loop). -/
structure SessionState where
  frame_count : Nat
  tracker : ByteTrackState
  isOpen : Bool
  deriving DecidableEq, Repr

/-- What one loop iteration sends back / logs: the `detections` and `tracks`
lists of that cycle.  `none` means nothing was sent (frame skipped, or the
loop terminated). -/
structure CycleOutput where
  detections : List Detection
  tracks : List Track
  deriving DecidableEq, Repr

/-- The cadence test of the stream loop:
`if frame_count % config.DETECTOR_FRAME_INTERVAL == 0`. -/
def shouldRunDetector (frameIndex interval : Nat) : Bool :=
  frameIndex % interval == 0

/-- One iteration of the `while True` body of `websocket_endpoint`, handling
one received message.  On decode failure the body `continue`s with nothing
changed.  Otherwise `frame_count += 1`; on a detector cycle, an exception
from `detector.detect` propagates to the session-level `except` handler and
ends the loop (tracker untouched, nothing sent); a successful detection is
fed to `tracker.update`.  On a non-detector cycle `detections` stays `[]` and
`tracks = tracker.get_active_tracks()`. -/
def sessionStep (interval : Nat) (st : SessionState) (msg : FrameMsg) :
    SessionState × Option CycleOutput :=
  if st.isOpen = false then (st, none)
  else
    match msg with
    | .bad => (st, none)
    | .ok detResult =>
        let fc := st.frame_count + 1
        if shouldRunDetector fc interval then
          match detResult with
          | none => ({ st with frame_count := fc, isOpen := false }, none)
          | some dets =>
              let r := ByteTrack.update st.tracker dets
              ({ st with frame_count := fc, tracker := r.1 },
               some { detections := dets, tracks := r.2 })
        else
          ({ st with frame_count := fc },
           some { detections := [],
                  tracks := ByteTrack.get_active_tracks st.tracker })

/-! ## Concrete inputs used by witnesses and counterexamples -/

/-- A concrete detection: a person box. -/
def detA : Detection :=
  { box := (0, 0, 10, 10), confidence := 1, cls := "person" }

/-- A concrete detection: a car box. -/
def detB : Detection :=
  { box := (5, 5, 20, 20), confidence := Rat.mk' 4 5 (by decide) (by decide),
    cls := "car" }

/-- Tracker state reached from a fresh tracker (buffer 30) by one `update`
with a single detection: one live track, id 0, `last_seen = 1`. -/
def sA : ByteTrackState :=
  (ByteTrack.update (initState 30) [detA]).1

/-! ## Helper lemmas -/

/-- The id/uniqueness invariant of a tracker state: live tracks are kept in
strictly increasing id order (Python dict insertion order equals id order
because ids are allocated monotonically), and every live id is below the
`next_id` counter. -/
def ByteTrackState.Inv (s : ByteTrackState) : Prop :=
  s.tracks.Pairwise (fun a b => a.id < b.id) ∧ ∀ t ∈ s.tracks, t.id < s.next_id

theorem ageTrack_id (t : Track) : (ageTrack t).id = t.id := rfl

theorem ageTrack_last_seen (t : Track) :
    (ageTrack t).last_seen = t.last_seen + 1 := rfl

theorem mem_mkNewTracks {n : Nat} {ds : List Detection} {t : Track}
    (h : t ∈ mkNewTracks n ds) :
    n ≤ t.id ∧ t.id < n + ds.length ∧ t.last_seen = 0 := by
  induction ds generalizing n with
  | nil => simp [mkNewTracks] at h
  | cons d ds ih =>
      simp only [mkNewTracks, List.mem_cons] at h
      rcases h with h | h
      · subst h
        refine ⟨Nat.le_refl _, ?_, rfl⟩
        simp only [List.length_cons]
        omega
      · obtain ⟨h1, h2, h3⟩ := ih h
        refine ⟨Nat.le_of_succ_le h1, ?_, h3⟩
        simp only [List.length_cons]
        omega

theorem mkNewTracks_sorted (n : Nat) (ds : List Detection) :
    (mkNewTracks n ds).Pairwise (fun a b => a.id < b.id) := by
  induction ds generalizing n with
  | nil => simp [mkNewTracks]
  | cons d ds ih =>
      simp only [mkNewTracks]
      refine List.Pairwise.cons ?_ (ih (n + 1))
      intro t ht
      exact Nat.lt_of_succ_le (mem_mkNewTracks ht).1

theorem update_tracks_eq (s : ByteTrackState) (ds : List Detection) :
    (ByteTrack.update s ds).1.tracks =
      ((s.tracks ++ mkNewTracks s.next_id ds).map ageTrack).filter
        (fun t => t.last_seen ≤ s.buffer_size) := rfl

theorem update_next_id (s : ByteTrackState) (ds : List Detection) :
    (ByteTrack.update s ds).1.next_id = s.next_id + ds.length := rfl

theorem update_buffer (s : ByteTrackState) (ds : List Detection) :
    (ByteTrack.update s ds).1.buffer_size = s.buffer_size := rfl

theorem update_returned (s : ByteTrackState) (ds : List Detection) :
    (ByteTrack.update s ds).2 = (mkNewTracks s.next_id ds).map ageTrack := rfl

/-- Every track in the map after an `update` is an aged copy of a live or
freshly created track, and its age passed the eviction filter. -/
theorem mem_update_tracks {s : ByteTrackState} {ds : List Detection} {u : Track}
    (h : u ∈ (ByteTrack.update s ds).1.tracks) :
    ∃ v, (v ∈ s.tracks ∨ v ∈ mkNewTracks s.next_id ds) ∧ u = ageTrack v ∧
      u.last_seen ≤ s.buffer_size := by
  rw [update_tracks_eq] at h
  have h' := List.mem_filter.1 h
  obtain ⟨v, hv, rfl⟩ := List.mem_map.1 h'.1
  exact ⟨v, List.mem_append.1 hv, rfl, of_decide_eq_true h'.2⟩

/-- A live track whose incremented age stays within the buffer survives the
`update` as its aged copy. -/
theorem survive_update {s : ByteTrackState} {t : Track} (ht : t ∈ s.tracks)
    (hb : t.last_seen + 1 ≤ s.buffer_size) (ds : List Detection) :
    ageTrack t ∈ (ByteTrack.update s ds).1.tracks := by
  rw [update_tracks_eq]
  refine List.mem_filter.2 ⟨List.mem_map.2 ⟨t, List.mem_append.2 (Or.inl ht), rfl⟩, ?_⟩
  exact decide_eq_true (by simpa [ageTrack] using hb)

/-- The id invariant is preserved by `ByteTrack.update`: aging does not touch
ids, new ids continue strictly above every live id, and eviction only removes
entries. -/
theorem inv_update {s : ByteTrackState} (hs : s.Inv) (ds : List Detection) :
    (ByteTrack.update s ds).1.Inv := by
  obtain ⟨hpair, hlt⟩ := hs
  constructor
  · rw [update_tracks_eq]
    refine List.Pairwise.filter _ ?_
    rw [List.pairwise_map]
    simp only [ageTrack_id]
    refine (List.pairwise_append).2 ⟨hpair, mkNewTracks_sorted _ _, ?_⟩
    intro a ha b hb
    exact Nat.lt_of_lt_of_le (hlt a ha) (mem_mkNewTracks hb).1
  · intro t ht
    rw [update_next_id]
    obtain ⟨v, hv, rfl, _⟩ := mem_update_tracks ht
    rw [ageTrack_id]
    rcases hv with hv | hv
    · exact Nat.lt_of_lt_of_le (hlt v hv) (Nat.le_add_right _ _)
    · exact (mem_mkNewTracks hv).2.1

theorem inv_initState (b : Nat) : (initState b).Inv :=
  ⟨List.Pairwise.nil, by intro t ht; simp [initState] at ht⟩

theorem inv_runUpdates {s : ByteTrackState} (hs : s.Inv)
    (dss : List (List Detection)) : (runUpdates s dss).Inv := by
  induction dss generalizing s with
  | nil => exact hs
  | cons ds rest ih => exact ih (inv_update hs ds)

theorem runUpdates_buffer (s : ByteTrackState) (dss : List (List Detection)) :
    (runUpdates s dss).buffer_size = s.buffer_size := by
  induction dss generalizing s with
  | nil => rfl
  | cons ds rest ih => simpa [runUpdates, update_buffer] using ih _

theorem runUpdates_next_le (s : ByteTrackState) (dss : List (List Detection)) :
    s.next_id ≤ (runUpdates s dss).next_id := by
  induction dss generalizing s with
  | nil => exact Nat.le_refl _
  | cons ds rest ih =>
      refine Nat.le_trans ?_ (ih (ByteTrack.update s ds).1)
      rw [update_next_id]
      exact Nat.le_add_right _ _

theorem runUpdates_append (s : ByteTrackState) (xs ys : List (List Detection)) :
    runUpdates s (xs ++ ys) = runUpdates (runUpdates s xs) ys := by
  induction xs generalizing s with
  | nil => rfl
  | cons x xs ih => simp [runUpdates, ih]

/-- Every track surviving an `update` has an age within the buffer. -/
theorem update_age_le {s : ByteTrackState} {t : Track} {ds : List Detection}
    (h : t ∈ (ByteTrack.update s ds).1.tracks) :
    t.last_seen ≤ s.buffer_size :=
  (mem_update_tracks h).choose_spec.2.2

/-- Strictly increasing ids make the id field injective on the list. -/
theorem pairwise_id_inj {l : List Track}
    (h : l.Pairwise (fun a b => a.id < b.id)) :
    ∀ v ∈ l, ∀ t ∈ l, v.id = t.id → v = t :=
  List.inj_on_of_nodup_map
    (List.pairwise_map.2 (h.imp fun hlt => Nat.ne_of_lt hlt))

/-- Tracks aged by an `update` keep their age bound below the buffer size,
along any run. -/
theorem ageInv_runUpdates {s : ByteTrackState}
    (hs : ∀ t ∈ s.tracks, t.last_seen ≤ s.buffer_size)
    (dss : List (List Detection)) :
    ∀ t ∈ (runUpdates s dss).tracks,
      t.last_seen ≤ (runUpdates s dss).buffer_size := by
  induction dss generalizing s with
  | nil => exact hs
  | cons ds rest ih =>
      refine ih ?_
      intro t ht
      rw [update_buffer]
      exact update_age_le ht

/-! ## Claims -/

/-- C4: across any sequence of `update` calls from a fresh tracker, no two
simultaneously-live tracks share an id (the live id list is `Nodup`), every
live id is below the `next_id` counter, every id assigned by a further
`update` is at least the counter and hence greater than every live id, the
counter only ever increases along any continuation of the run, and no track's
id changes once assigned: a live track either survives the next `update` as
its aged copy (same id, same payload, age + 1) or no track with its id
remains. -/
theorem c4_id_uniqueness_monotonicity (b : Nat)
    (dss rest : List (List Detection)) (ds : List Detection) :
    ((runUpdates (initState b) dss).tracks.map Track.id).Nodup ∧
    (∀ t ∈ (runUpdates (initState b) dss).tracks,
       t.id < (runUpdates (initState b) dss).next_id) ∧
    (∀ t ∈ (ByteTrack.update (runUpdates (initState b) dss) ds).2,
       (runUpdates (initState b) dss).next_id ≤ t.id ∧
       ∀ u ∈ (runUpdates (initState b) dss).tracks, u.id < t.id) ∧
    ((runUpdates (initState b) dss).next_id ≤
       (runUpdates (initState b) (dss ++ rest)).next_id) ∧
    (∀ t ∈ (runUpdates (initState b) dss).tracks,
       ageTrack t ∈
           (ByteTrack.update (runUpdates (initState b) dss) ds).1.tracks ∨
       ∀ u ∈ (ByteTrack.update (runUpdates (initState b) dss) ds).1.tracks,
         u.id ≠ t.id) := by
  have hinv := inv_runUpdates (inv_initState b) dss
  obtain ⟨hpair, hlt⟩ := hinv
  refine ⟨?_, hlt, ?_, ?_, ?_⟩
  · exact List.pairwise_map.2 (hpair.imp fun h => Nat.ne_of_lt h)
  · intro t ht
    rw [update_returned] at ht
    obtain ⟨v, hv, rfl⟩ := List.mem_map.1 ht
    rw [ageTrack_id]
    have hn := (mem_mkNewTracks hv).1
    exact ⟨hn, fun u hu => Nat.lt_of_lt_of_le (hlt u hu) hn⟩
  · rw [runUpdates_append]
    exact runUpdates_next_le _ rest
  · intro t ht
    by_cases hb :
        t.last_seen + 1 ≤ (runUpdates (initState b) dss).buffer_size
    · exact Or.inl (survive_update ht hb ds)
    · refine Or.inr ?_
      intro u hu heq
      obtain ⟨v, hv, rfl, hle⟩ := mem_update_tracks hu
      rw [ageTrack_id] at heq
      rcases hv with hv | hv
      · have : v = t := pairwise_id_inj hpair v hv t ht heq
        subst this
        rw [ageTrack_last_seen] at hle
        exact hb hle
      · have := (mem_mkNewTracks hv).1
        exact Nat.not_lt.2 (Nat.le_trans this (Nat.le_of_eq heq))
          (hlt t ht) |>.elim

/-- Witness for C4 at concrete inputs: two update cycles from a fresh
tracker with buffer 30 give distinct live ids, and the id counter does not
decrease when the run is extended by a further cycle. -/
theorem c4_witness :
    ((runUpdates (initState 30) [[detA], [detB]]).tracks.map Track.id).Nodup ∧
    (runUpdates (initState 30) [[detA]]).next_id ≤
      (runUpdates (initState 30) ([[detA]] ++ [[detB]])).next_id :=
  ⟨(c4_id_uniqueness_monotonicity 30 [[detA], [detB]] [] []).1,
   (c4_id_uniqueness_monotonicity 30 [[detA]] [[detB]] []).2.2.2.1⟩

/-- C3 counterexample.  The claim fails on the code in two ways, both shown
at concrete inputs: (1) with `buffer_size = 0`, the track created by
`update([detA])` leaves the call with age `1 > bufferSize` yet appears in the
returned list (the claim requires it to be absent from the returned set on
the first cycle its age exceeds `bufferSize`); (2) on a track-only cycle,
`get_active_tracks` does not increment ages: the track of state `sA` has age
1 before and after the fetch (the claim requires age to increase by exactly 1
on each cycle in which the track is not matched). -/
theorem c3_counterexample :
    ((ByteTrack.update (initState 0) [detA]).2.map Track.last_seen = [1] ∧
      (initState 0).buffer_size = 0 ∧
      (ByteTrack.update (initState 0) [detA]).2 ≠ []) ∧
    ((ByteTrack.get_active_tracks sA).map Track.last_seen = [1] ∧
      sA.tracks.map Track.last_seen = [1] ∧
      (ByteTrack.get_active_tracks sA).map Track.last_seen ≠
        sA.tracks.map (fun t => t.last_seen + 1)) := by
  decide

/-- C3 amended: after every `update` call along any run, no track with
age > `bufferSize` exists in the internal live set; a live track whose
incremented age stays within the buffer survives the next `update` as its
aged copy (age + 1), while a live track whose incremented age exceeds the
buffer is evicted — no track with its id remains in the internal map.  (Ages
change only in `update`; track-only cycles leave them untouched, and a track
created by an `update` with `bufferSize = 0` can still appear in that call's
returned list.) -/
theorem c3_amended_eviction_bound (b : Nat) (dss : List (List Detection))
    (ds : List Detection) :
    (∀ t ∈ (runUpdates (initState b) dss).tracks, t.last_seen ≤ b) ∧
    (∀ t ∈ (runUpdates (initState b) dss).tracks,
       t.last_seen + 1 ≤ b →
         ageTrack t ∈
           (ByteTrack.update (runUpdates (initState b) dss) ds).1.tracks) ∧
    (∀ t ∈ (runUpdates (initState b) dss).tracks,
       b < t.last_seen + 1 →
         ∀ u ∈ (ByteTrack.update (runUpdates (initState b) dss) ds).1.tracks,
           u.id ≠ t.id) := by
  have hbuf : (runUpdates (initState b) dss).buffer_size = b :=
    runUpdates_buffer (initState b) dss
  have hinv := inv_runUpdates (inv_initState b) dss
  refine ⟨?_, ?_, ?_⟩
  · intro t ht
    have := ageInv_runUpdates (s := initState b)
      (by intro t ht; simp [initState] at ht) dss t ht
    rwa [hbuf] at this
  · intro t ht hb
    exact survive_update ht (by rwa [hbuf]) ds
  · intro t ht hb u hu heq
    obtain ⟨v, hv, rfl, hle⟩ := mem_update_tracks hu
    rw [ageTrack_id] at heq
    rcases hv with hv | hv
    · have : v = t := pairwise_id_inj hinv.1 v hv t ht heq
      subst this
      rw [ageTrack_last_seen, hbuf] at hle
      exact Nat.not_le.2 hb hle
    · have h1 : (runUpdates (initState b) dss).next_id ≤ t.id :=
        heq ▸ (mem_mkNewTracks hv).1
      exact Nat.not_le.2 (hinv.2 t ht) h1

/-- Witness for the amended C3: for the concrete run reaching state `sA`
(one track, id 0, age 1, buffer 30), the age bound holds and the track
survives the next empty `update` with age 2. -/
theorem c3_amended_witness :
    (∀ t ∈ (runUpdates (initState 30) [[detA]]).tracks, t.last_seen ≤ 30) ∧
    ageTrack { id := 0, box := (0, 0, 10, 10), cls := "person",
               confidence := 1, last_seen := 1 } ∈
      (ByteTrack.update (runUpdates (initState 30) [[detA]]) []).1.tracks :=
  ⟨(c3_amended_eviction_bound 30 [[detA]] []).1,
   (c3_amended_eviction_bound 30 [[detA]] []).2.1
     { id := 0, box := (0, 0, 10, 10), cls := "person",
       confidence := 1, last_seen := 1 }
     (by decide) (by decide)⟩

/-- C1: evaluation of the code at the failing input.  From a tracker holding
one live track (id 0, age 1, buffer 30), `update([])` returns the empty list
even though the internal live set still contains the track (id 0, now age
2 ≤ 30).  `ByteTrack.update` only ever returns the tracks created by that
very call, contradicting the claim (and the method's own docstring, which
says the returned list includes "new and persistent" tracks). -/
theorem c1_returned_set_code_bug :
    (ByteTrack.update sA []).2 = [] ∧
    (ByteTrack.update sA []).1.tracks.map Track.id = [0] ∧
    (ByteTrack.update sA []).1.tracks.map Track.last_seen = [2] ∧
    (ByteTrack.update sA []).2 ≠ (ByteTrack.update sA []).1.tracks := by
  decide

/-- C5: evaluation of the code at Scenario D's input.  With one live track of
age 0 and `bufferSize = 30`, `update([])` does make the track's age 1 and
keeps it in the internal live set, but the list returned by that call is
empty — the track is not present in it, contradicting the scenario (and the
method's own docstring). -/
theorem c5_scenarioD_code_bug :
    (ByteTrack.update
        { tracks := [{ id := 0, box := (0, 0, 10, 10), cls := "person",
                       confidence := 1, last_seen := 0 }],
          next_id := 1, buffer_size := 30 } []).1.tracks.map
        Track.last_seen = [1] ∧
    (ByteTrack.update
        { tracks := [{ id := 0, box := (0, 0, 10, 10), cls := "person",
                       confidence := 1, last_seen := 0 }],
          next_id := 1, buffer_size := 30 } []).1.tracks.map Track.id = [0] ∧
    (ByteTrack.update
        { tracks := [{ id := 0, box := (0, 0, 10, 10), cls := "person",
                       confidence := 1, last_seen := 0 }],
          next_id := 1, buffer_size := 30 } []).2 = [] := by
  decide

/-- C10: every track created by an `update` call is aged by that same call's
aging pass: every returned track dict has age 1, every track in the internal
map whose id was allocated by this call has age 1, and with `buffer_size = 0`
the internal live set is empty as soon as the call returns (everything aged
to at least 1 > 0 and evicted). -/
theorem c10_new_tracks_age_one (s : ByteTrackState) (ds : List Detection)
    (hids : ∀ u ∈ s.tracks, u.id < s.next_id) :
    (∀ t ∈ (ByteTrack.update s ds).2, t.last_seen = 1) ∧
    (∀ t ∈ (ByteTrack.update s ds).1.tracks,
       s.next_id ≤ t.id → t.last_seen = 1) ∧
    (s.buffer_size = 0 → (ByteTrack.update s ds).1.tracks = []) := by
  refine ⟨?_, ?_, ?_⟩
  · intro t ht
    rw [update_returned] at ht
    obtain ⟨v, hv, rfl⟩ := List.mem_map.1 ht
    rw [ageTrack_last_seen, (mem_mkNewTracks hv).2.2]
  · intro t ht hid
    obtain ⟨v, hv, rfl, _⟩ := mem_update_tracks ht
    rw [ageTrack_id] at hid
    rcases hv with hv | hv
    · exact absurd hid (Nat.not_le.2 (hids v hv))
    · rw [ageTrack_last_seen, (mem_mkNewTracks hv).2.2]
  · intro hb
    rw [update_tracks_eq, List.filter_eq_nil_iff]
    intro t ht
    obtain ⟨v, _, rfl⟩ := List.mem_map.1 ht
    simp [ageTrack, hb]

/-- Witness for C10 at concrete inputs: from a fresh tracker with buffer 0,
the tracks returned by `update([detA, detB])` all have age 1, and the
internal live set is empty when the call returns. -/
theorem c10_witness :
    (∀ t ∈ (ByteTrack.update (initState 0) [detA, detB]).2,
       t.last_seen = 1) ∧
    (ByteTrack.update (initState 0) [detA, detB]).1.tracks = [] :=
  ⟨(c10_new_tracks_age_one (initState 0) [detA, detB]
      (by intro u hu; simp [initState] at hu)).1,
   (c10_new_tracks_age_one (initState 0) [detA, detB]
      (by intro u hu; simp [initState] at hu)).2.2 rfl⟩

/-- C2 counterexample.  On a track-only cycle (frame 2 with interval 5) the
stream loop calls `get_active_tracks`, which does not increment any age: the
track of state `sA` has age 1 both before and after the cycle, and the
tracker state is unchanged, contradicting the claim that every live track's
age grows by exactly 1. -/
theorem c2_counterexample :
    (sessionStep 5 { frame_count := 1, tracker := sA, isOpen := true }
        (FrameMsg.ok (some []))).1.tracker = sA ∧
    (sessionStep 5 { frame_count := 1, tracker := sA, isOpen := true }
        (FrameMsg.ok (some []))).2 =
      some { detections := [], tracks := ByteTrack.get_active_tracks sA } ∧
    (ByteTrack.get_active_tracks sA).map Track.last_seen = [1] ∧
    (ByteTrack.get_active_tracks sA).map Track.last_seen ≠
      sA.tracks.map (fun t => t.last_seen + 1) := by
  decide

/-- C2 amended: on every scheduler cycle where the detector does not run,
the stream loop calls `get_active_tracks`, which creates no new tracks,
increments no ages, evicts nothing, and returns the current live set
unchanged; the only session state that changes is the frame counter. -/
theorem c2_amended_track_only (interval : Nat) (st : SessionState)
    (detResult : Option (List Detection)) (hopen : st.isOpen = true)
    (hnd : shouldRunDetector (st.frame_count + 1) interval = false) :
    (sessionStep interval st (FrameMsg.ok detResult)).1 =
      { st with frame_count := st.frame_count + 1 } ∧
    (sessionStep interval st (FrameMsg.ok detResult)).2 =
      some { detections := [],
             tracks := ByteTrack.get_active_tracks st.tracker } ∧
    ByteTrack.get_active_tracks st.tracker = st.tracker.tracks := by
  refine ⟨?_, ?_, rfl⟩ <;> simp [sessionStep, hopen, hnd]

/-- Witness for the amended C2: a concrete track-only cycle (frame 2,
interval 5) leaves the tracker of state `sA` untouched and returns its live
set. -/
theorem c2_amended_witness :
    (sessionStep 5 { frame_count := 1, tracker := sA, isOpen := true }
        (FrameMsg.ok none)).1 =
      { frame_count := 2, tracker := sA, isOpen := true } ∧
    (sessionStep 5 { frame_count := 1, tracker := sA, isOpen := true }
        (FrameMsg.ok none)).2 =
      some { detections := [], tracks := ByteTrack.get_active_tracks sA } ∧
    ByteTrack.get_active_tracks sA = sA.tracks :=
  c2_amended_track_only 5
    { frame_count := 1, tracker := sA, isOpen := true } none rfl (by decide)

/-- C6: the frame-cadence decision is the pure predicate
`frame_count % DETECTOR_FRAME_INTERVAL == 0` of the frame index and the
interval (interval ≥ 1), and in a streaming cycle the tracker is updated by
the detector's result exactly when that predicate holds. -/
theorem c6_frame_cadence (frameIndex interval : Nat) (st : SessionState)
    (dets : List Detection) (hint : 1 ≤ interval)
    (hopen : st.isOpen = true) :
    (shouldRunDetector frameIndex interval = true ↔
      frameIndex % interval = 0) ∧
    ((sessionStep interval st (FrameMsg.ok (some dets))).1.tracker =
       if shouldRunDetector (st.frame_count + 1) interval = true
       then (ByteTrack.update st.tracker dets).1 else st.tracker) := by
  constructor
  · simp [shouldRunDetector]
  · by_cases h : shouldRunDetector (st.frame_count + 1) interval = true
    · simp [sessionStep, hopen, h]
    · have h' : shouldRunDetector (st.frame_count + 1) interval = false :=
        Bool.eq_false_iff.2 h
      simp [sessionStep, hopen, h']

/-- Witness for C6: with interval 5, frame 10 is a detector cycle
(`10 % 5 = 0`) and the session's tracker is updated accordingly. -/
theorem c6_witness :
    (shouldRunDetector 10 5 = true ↔ 10 % 5 = 0) ∧
    ((sessionStep 5 { frame_count := 9, tracker := initState 30,
                      isOpen := true }
        (FrameMsg.ok (some [detA]))).1.tracker =
       if shouldRunDetector (9 + 1) 5 = true
       then (ByteTrack.update (initState 30) [detA]).1 else initState 30) :=
  c6_frame_cadence 10 5
    { frame_count := 9, tracker := initState 30, isOpen := true } [detA]
    (by decide) rfl

/-- C7 counterexample.  With interval 1 (every frame a detector cycle), a
detector exception on frame 1 closes the session: the loop exits, nothing is
sent, and in particular the cycle does not degrade to the track-only output
the claim requires. -/
theorem c7_counterexample :
    (sessionStep 1 { frame_count := 0, tracker := sA, isOpen := true }
        (FrameMsg.ok none)).1.isOpen = false ∧
    (sessionStep 1 { frame_count := 0, tracker := sA, isOpen := true }
        (FrameMsg.ok none)).2 = none ∧
    (sessionStep 1 { frame_count := 0, tracker := sA, isOpen := true }
        (FrameMsg.ok none)).2 ≠
      some { detections := [], tracks := ByteTrack.get_active_tracks sA } := by
  decide

/-- C7 amended: if the external detector raises on a detection cycle, the
exception propagates out of the `while` loop to the session-level `except`
handler: the session closes, the tracker is left untouched, nothing is sent
for that cycle, and the loop accepts no further frames (a closed session
absorbs every subsequent message). -/
theorem c7_amended_detector_error (interval : Nat) (st : SessionState)
    (msg : FrameMsg) (hopen : st.isOpen = true)
    (hdet : shouldRunDetector (st.frame_count + 1) interval = true) :
    (sessionStep interval st (FrameMsg.ok none)).1.isOpen = false ∧
    (sessionStep interval st (FrameMsg.ok none)).1.tracker = st.tracker ∧
    (sessionStep interval st (FrameMsg.ok none)).2 = none ∧
    sessionStep interval (sessionStep interval st (FrameMsg.ok none)).1 msg =
      ((sessionStep interval st (FrameMsg.ok none)).1, none) := by
  have hstep : sessionStep interval st (FrameMsg.ok none) =
      ({ st with frame_count := st.frame_count + 1, isOpen := false },
       none) := by
    simp [sessionStep, hopen, hdet]
  rw [hstep]
  exact ⟨rfl, rfl, rfl, by simp [sessionStep]⟩

/-- Witness for the amended C7: a concrete detector failure on frame 1 with
interval 1 closes the session, and the next message is absorbed. -/
theorem c7_amended_witness :
    (sessionStep 1 { frame_count := 3, tracker := initState 30,
                     isOpen := true } (FrameMsg.ok none)).1.isOpen = false ∧
    (sessionStep 1 { frame_count := 3, tracker := initState 30,
                     isOpen := true } (FrameMsg.ok none)).1.tracker =
      initState 30 ∧
    (sessionStep 1 { frame_count := 3, tracker := initState 30,
                     isOpen := true } (FrameMsg.ok none)).2 = none ∧
    sessionStep 1
        (sessionStep 1 { frame_count := 3, tracker := initState 30,
                         isOpen := true } (FrameMsg.ok none)).1
        (FrameMsg.ok (some [detA])) =
      ((sessionStep 1 { frame_count := 3, tracker := initState 30,
                        isOpen := true } (FrameMsg.ok none)).1, none) :=
  c7_amended_detector_error 1
    { frame_count := 3, tracker := initState 30, isOpen := true }
    (FrameMsg.ok (some [detA])) rfl (by decide)

/-- C8: a malformed or undecodable frame payload makes the loop body
`continue` before `frame_count += 1`: the session state (frame counter,
tracker, open flag) is exactly what it was, the session remains open, and
nothing is sent for that cycle. -/
theorem c8_decode_failure_skips (interval : Nat) (st : SessionState)
    (hopen : st.isOpen = true) :
    sessionStep interval st FrameMsg.bad = (st, none) ∧
    (sessionStep interval st FrameMsg.bad).1.isOpen = true ∧
    (sessionStep interval st FrameMsg.bad).1.tracker = st.tracker ∧
    (sessionStep interval st FrameMsg.bad).1.frame_count =
      st.frame_count := by
  have h : sessionStep interval st FrameMsg.bad = (st, none) := by
    simp [sessionStep, hopen]
  exact ⟨h, by rw [h]; exact hopen, by rw [h], by rw [h]⟩

/-- Witness for C8: a concrete malformed frame leaves a concrete session
state untouched. -/
theorem c8_witness :
    sessionStep 5 { frame_count := 3, tracker := sA, isOpen := true }
        FrameMsg.bad =
      ({ frame_count := 3, tracker := sA, isOpen := true }, none) ∧
    (sessionStep 5 { frame_count := 3, tracker := sA, isOpen := true }
        FrameMsg.bad).1.isOpen = true ∧
    (sessionStep 5 { frame_count := 3, tracker := sA, isOpen := true }
        FrameMsg.bad).1.tracker = sA ∧
    (sessionStep 5 { frame_count := 3, tracker := sA, isOpen := true }
        FrameMsg.bad).1.frame_count = 3 :=
  c8_decode_failure_skips 5
    { frame_count := 3, tracker := sA, isOpen := true } rfl

/-- C9: determinism — two runs fed an identical ordered sequence of cycle
inputs (detection lists on detector cycles, track-only otherwise) produce
identical sequences of track sets, same ids in the same order, and end in
identical tracker states.  The tracker is a deterministic function of its
inputs: it has no randomness and Python dicts iterate in insertion order. -/
theorem c9_determinism (b : Nat)
    (ins1 ins2 : List (Option (List Detection))) (h : ins1 = ins2) :
    (runCycles (initState b) ins1).2 = (runCycles (initState b) ins2).2 ∧
    runCycles (initState b) ins1 = runCycles (initState b) ins2 := by
  subst h
  exact ⟨rfl, rfl⟩

/-- Witness for C9: two identical concrete three-cycle input sequences give
identical output sequences. -/
theorem c9_witness :
    (runCycles (initState 30) [some [detA], none, some [detB]]).2 =
      (runCycles (initState 30) [some [detA], none, some [detB]]).2 ∧
    runCycles (initState 30) [some [detA], none, some [detB]] =
      runCycles (initState 30) [some [detA], none, some [detB]] :=
  c9_determinism 30 [some [detA], none, some [detB]]
    [some [detA], none, some [detB]] rfl
